import Mathlib

/-!
Shallow embedding of the core of the `nc` network relay utility:
`src/NetworkShepherd.cpp`, `src/main.cpp` and `src/error_reporting.h`,
in the POSIX configuration (`PLATFORM_WINDOWS` not defined).

External OS facilities (`getaddrinfo`, `getifaddrs`, the socket syscalls)
are modelled by explicit oracle inputs following their POSIX contracts.
Process termination through `REPORT_ERROR_AND_EXIT` /
`REPORT_ERROR_AND_CODE_AND_EXIT` is modelled as an error value carrying
the message literal, the optional platform error code and the exit status.
-/

/-! ## Platform constants (Linux values) -/

def AF_UNSPEC : Nat := 0
def AF_INET : Nat := 2
def AF_INET6 : Nat := 10

def EPERM : Int := 1
def EACCES : Int := 13
def EPIPE : Int := 32
def EADDRINUSE : Int := 98
def EADDRNOTAVAIL : Int := 99
def ENETDOWN : Int := 100
def ENETUNREACH : Int := 101
def ECONNABORTED : Int := 103
def ECONNRESET : Int := 104
def ETIMEDOUT : Int := 110
def ECONNREFUSED : Int := 111
def EHOSTUNREACH : Int := 113

def EAI_NONAME : Int := -2
def EAI_AGAIN : Int := -3
def EAI_FAIL : Int := -4
def EAI_NODATA : Int := -5
def EAI_MEMORY : Int := -10
def EAI_SYSTEM : Int := -11

def MSG_NOSIGNAL : Nat := 16384

/-! ## Process-exit model

`EXIT_SUCCESS` / `EXIT_FAILURE` and the payload of the two reporting
macros in `src/error_reporting.h`. -/

inductive ExitCode where
  | success
  | failure
deriving DecidableEq, Repr

structure ProgExit where
  msg : String
  errCode : Option Int
  exitCode : ExitCode
deriving DecidableEq, Repr

/-! ## Socket-address data model

`sockaddr_storage` values are modelled by their family, raw address bytes
and 16-bit port field.  `htons` swaps the two bytes of the port. -/

def htons (p : Nat) : Nat := (p % 256) * 256 + (p / 256 % 256)

structure SockAddr where
  sa_family : Nat
  addr : List Nat
  sin_port : Nat
deriving DecidableEq, Repr

/-- One address configured on a local interface (family plus raw bytes). -/
structure IfPayload where
  family : Nat
  addr : List Nat
deriving DecidableEq, Repr

/-- One entry of the linked list produced by `getifaddrs`
(`ifa_name`, `ifa_addr`; the `ifa_next` pointer is the list structure). -/
structure Ifaddr where
  ifa_name : String
  ifa_addr : Option IfPayload
deriving DecidableEq, Repr

/-- One `addrinfo` entry of the list produced by `getaddrinfo`. -/
structure AddrCandidate where
  sa_family : Nat
  addr : List Nat
deriving DecidableEq, Repr

/-- What the system resolver knows about one node string:
whether it is a numeric literal, and its candidate addresses. -/
structure DNSEntry where
  isNumeric : Bool
  addrs : List AddrCandidate

/-- The OS environment a resolution runs against: the `getifaddrs` result
(`none` models `getifaddrs` returning `-1`) and the name database behind
`getaddrinfo`. -/
structure World where
  ifaddrs : Option (List Ifaddr)
  dns : String → Option DNSEntry

/-! ## Message literals of `construct_sockaddr` -/

def msg_gai_again : String := "sockaddr construction failed, temporary DNS lookup failure, try again later"
def msg_gai_fail : String := "sockaddr construction failed, DNS lookup failed"
def msg_gai_memory : String := "sockaddr construction failed, out of memory"
def msg_gai_nodata : String := "sockaddr construction failed, hostname does not possess any valid addresses"
def msg_gai_noname : String := "sockaddr construction failed, invalid address/hostname/interface"
def msg_gai_system : String := "sockaddr construction failed, system error"
def msg_gai_unknown : String := "sockaddr construction failed, unknown reason"

/-- The message of the `REPORT_ERROR_AND_EXIT` after the `addrinfo` loop
(line 192 of `src/NetworkShepherd.cpp`) — the would-be distinct
"constraint unsatisfied" category. -/
def msg_no_ip_addresses : String := "sockaddr construction failed, hostname does not possess any IP addresses"

/-! ## getaddrinfo model

Modelled from the POSIX contract of the external libc function
`getaddrinfo`: a lookup of `node` returns its candidate addresses
filtered by the `ai_family` hint (`AF_UNSPEC` means unrestricted); with
`AI_NUMERICHOST` set, a node that is not a numeric address literal fails
with `EAI_NONAME`; a name with no candidate of the requested family fails
(here with `EAI_NODATA`); a successful call yields a non-empty list. -/

/-- Candidate list of a lookup: unrestricted under `AF_UNSPEC`, else
filtered to the hinted family. -/
def gaiCandidates (entry : DNSEntry) (family : Nat) : List AddrCandidate :=
  if family = AF_UNSPEC then entry.addrs
  else entry.addrs.filter (fun a => a.sa_family == family)

def getaddrinfo_model (w : World) (node : String) (family : Nat) (numericOnly : Bool) :
    Except Int (List AddrCandidate) :=
  match w.dns node with
  | none => .error EAI_NONAME
  | some entry =>
    if numericOnly && !entry.isNumeric then .error EAI_NONAME
    else if (gaiCandidates entry family).isEmpty then .error EAI_NODATA
    else .ok (gaiCandidates entry family)

/-- The `switch (getaddrinfo(...))` error mapping of `construct_sockaddr`
(lines 143-169): each `EAI_*` code gets its message; the `default:` arm
reports "unknown reason".  Every arm exits with `EXIT_FAILURE`. -/
def gaiErrorExit (e : Int) : ProgExit :=
  if e = EAI_AGAIN then ⟨msg_gai_again, none, .failure⟩
  else if e = EAI_FAIL then ⟨msg_gai_fail, none, .failure⟩
  else if e = EAI_MEMORY then ⟨msg_gai_memory, none, .failure⟩
  else if e = EAI_NODATA then ⟨msg_gai_nodata, none, .failure⟩
  else if e = EAI_NONAME then ⟨msg_gai_noname, none, .failure⟩
  else if e = EAI_SYSTEM then ⟨msg_gai_system, none, .failure⟩
  else ⟨msg_gai_unknown, none, .failure⟩

/-! ## IP version constraint and interface enumeration -/

inductive IPVersionConstraint where
  | NONE
  | FOUR
  | SIX
deriving DecidableEq, Repr

/-- Copy a candidate into `result_sockaddr` and stamp
`((sockaddr_in*)&result_sockaddr)->sin_port = htons(port)`. -/
def stampPort (family : Nat) (addr : List Nat) (port : Nat) : SockAddr :=
  ⟨family, addr, htons port⟩

/-- The body of one iteration of the `getifaddrs` loop
(lines 104-125 of `src/NetworkShepherd.cpp`): on a name match, skip a null
`ifa_addr`; then the `switch` takes an `AF_INET6` address under `NONE`
(falling through to also take `AF_INET`), an `AF_INET` address under
`FOUR`, an `AF_INET6` address under `SIX`, and otherwise `continue`s. -/
def ifaddrEntryPick (node : String) (port : Nat) (c : IPVersionConstraint) (a : Ifaddr) :
    Option SockAddr :=
  if a.ifa_name = node then
    match a.ifa_addr with
    | none => none
    | some p =>
      match c with
      | .NONE =>
        if p.family = AF_INET6 then some (stampPort p.family p.addr port)
        else if p.family = AF_INET then some (stampPort p.family p.addr port)
        else none
      | .FOUR =>
        if p.family = AF_INET then some (stampPort p.family p.addr port) else none
      | .SIX =>
        if p.family = AF_INET6 then some (stampPort p.family p.addr port) else none
  else none

/-- The `getifaddrs` loop (line 103):
`for (addr = interfaceAddresses; addr->ifa_next != nullptr; addr = addr->ifa_next)`.
The condition tests the successor pointer, so the final list entry is
never examined.  (`getifaddrs` success always yields a non-empty list; on
an empty list the source would dereference a null pointer.) -/
def ifaddrLoop (node : String) (port : Nat) (c : IPVersionConstraint) :
    List Ifaddr → Option SockAddr
  | [] => none
  | [_] => none
  | a :: b :: rest =>
    match ifaddrEntryPick node port c a with
    | some r => some r
    | none => ifaddrLoop node port c (b :: rest)

/-- Helper scanner over a whole entry list (used to state that
`ifaddrLoop` scans exactly `dropLast` of its input). -/
def ifaddrScan (node : String) (port : Nat) (c : IPVersionConstraint) :
    List Ifaddr → Option SockAddr
  | [] => none
  | a :: rest =>
    match ifaddrEntryPick node port c a with
    | some r => some r
    | none => ifaddrScan node port c rest

/-! ## The addrinfo selection loop -/

inductive AddrinfoPick where
  | picked (cand : AddrCandidate)
  | garbage
deriving DecidableEq, Repr

/-- The `for (info = addressInfo; ; info = info->ai_next)` loop
(lines 171-190).  Under `NONE` each candidate is taken if it is
`AF_INET6`, else taken if it is `AF_INET`, else skipped — except that at
the last candidate `if (!info->ai_next) break;` drops out of the switch
and the function returns `result_sockaddr` with nothing but the port
field written (`garbage`).  Under `FOUR` and `SIX` the first candidate is
copied unconditionally.  `none` (empty input) corresponds to a null
`addrinfo` dereference in the source and is unreachable through
`getaddrinfo_model`. -/
def addrinfoLoop (c : IPVersionConstraint) : List AddrCandidate → Option AddrinfoPick
  | [] => none
  | [a] =>
    match c with
    | .NONE =>
      if a.sa_family = AF_INET6 then some (.picked a)
      else if a.sa_family = AF_INET then some (.picked a)
      else some .garbage
    | .FOUR => some (.picked a)
    | .SIX => some (.picked a)
  | a :: b :: rest =>
    match c with
    | .NONE =>
      if a.sa_family = AF_INET6 then some (.picked a)
      else if a.sa_family = AF_INET then some (.picked a)
      else addrinfoLoop c (b :: rest)
    | .FOUR => some (.picked a)
    | .SIX => some (.picked a)

/-- Result of `construct_sockaddr`: a concrete address, or the
uninitialised `sockaddr_storage` (only the port field written) produced
by the `garbage` path, or the null dereference on an empty candidate
list. -/
inductive CSAResult where
  | addr (a : SockAddr)
  | uninit (port : Nat)
  | srcCrash
deriving DecidableEq, Repr

/-- `addressRetrievalHint.ai_family` from the constraint (lines 135-139). -/
def hintFamily (c : IPVersionConstraint) : Nat :=
  match c with
  | .NONE => AF_UNSPEC
  | .FOUR => AF_INET
  | .SIX => AF_INET6

/-- The hostname/literal lookup phase of `construct_sockaddr`
(lines 135-192): build the hint, call `getaddrinfo`, map its errors, then
run the selection loop and stamp the port. -/
def addrinfoPhase (w : World) (node : String) (port : Nat) (c : IPVersionConstraint)
    (numericOnly : Bool) : Except ProgExit CSAResult :=
  match getaddrinfo_model w node (hintFamily c) numericOnly with
  | .error e => .error (gaiErrorExit e)
  | .ok cands =>
    match addrinfoLoop c cands with
    | some (.picked a) => .ok (.addr (stampPort a.sa_family a.addr port))
    | some .garbage => .ok (.uninit (htons port))
    | none => .ok .srcCrash

/-- `construct_sockaddr<resolve_interfaces_instead_of_hostnames>` on POSIX
(lines 75-193).  In interface mode the `getifaddrs` loop runs first; when
it does not return, `AI_NUMERICHOST` is OR-ed into the hint flags — note
that this happens even when `getifaddrs` itself failed. -/
def construct_sockaddr (resolveInterfaces : Bool) (w : World) (node : String) (port : Nat)
    (c : IPVersionConstraint) : Except ProgExit CSAResult :=
  if resolveInterfaces then
    match w.ifaddrs with
    | some l =>
      match ifaddrLoop node port c l with
      | some a => .ok (.addr a)
      | none => addrinfoPhase w node port c true
    | none => addrinfoPhase w node port c true
  else addrinfoPhase w node port c false

/-! ## Spec-side selectors (used only to state amended claims) -/

def isIPFamily (f : Nat) : Bool := f == AF_INET6 || f == AF_INET

/-- First candidate whose family is IPv4 or IPv6, in candidate order. -/
def firstIPCandidate (l : List AddrCandidate) : Option AddrCandidate :=
  l.find? (fun a => isIPFamily a.sa_family)

/-- The configured address of an entry whose name matches `node`. -/
def ifPayloadOf (node : String) (a : Ifaddr) : Option IfPayload :=
  if a.ifa_name = node then a.ifa_addr else none

/-- First configured address (in scan order, final entry excluded) on an
entry whose name matches `node` and whose family is IPv4 or IPv6. -/
def firstMatchingIfPayload (node : String) (l : List Ifaddr) : Option IfPayload :=
  (l.dropLast.filterMap (ifPayloadOf node)).find? (fun p => isIPFamily p.family)

/-! ## Connection lifecycle: outcome and event model -/

/-- Outcome of running one lifecycle operation: normal return, process
termination through a reporting macro, or control flow that depends on
indeterminate memory (the `uninit`/`srcCrash` resolution results). -/
inductive RunResult (α : Type) where
  | ok (a : α)
  | exited (e : ProgExit)
  | undef
deriving DecidableEq, Repr

/-- Observable socket-layer actions of `createListener`. -/
inductive NetEvent where
  | socketCall (family : Nat) (type : Nat)
  | setV6Only (value : Bool)
  | bindCall (a : SockAddr)
deriving DecidableEq, Repr

/-- Success/failure of the syscalls `createListener` performs. -/
structure ListenerSyscalls where
  socket_ok : Bool
  setsockopt_ok : Bool
  bind_errno : Option Int
deriving Repr

def msg_listener_socket_fail : String := "failed to create TCP listener socket"
def msg_v6only_disable_fail : String := "failed to disable IPV6_V6ONLY on TCP listener with setsockopt"
def msg_v6only_enable_fail : String := "failed to enable IPV6_V6ONLY on TCP listener with setsockopt"
def msg_bindL_perm : String := "permission to bind TCP listener to address+port denied by local system"
def msg_bindL_ephemeral : String := "bind TCP listener failed, no ephemeral ports available"
def msg_bindL_occupied : String := "bind TCP listener failed, port occupied"
def msg_bindL_unknown : String := "bind TCP listener failed, unknown reason"

/-- The `bind` error switch of `createListener` (lines 222-242):
`EACCES` is permission denied; `EADDRINUSE` with port 0 means no
ephemeral ports, otherwise port occupied; anything else is unknown with
the raw code attached. -/
def listenerBindExit (port : Nat) (e : Int) : ProgExit :=
  if e = EACCES then ⟨msg_bindL_perm, none, .failure⟩
  else if e = EADDRINUSE then
    (if port = 0 then ⟨msg_bindL_ephemeral, none, .failure⟩
     else ⟨msg_bindL_occupied, none, .failure⟩)
  else ⟨msg_bindL_unknown, some e, .failure⟩

/-- `NetworkShepherd::createListener` (lines 195-243): resolve with
interface recognition, create the socket with the resolved family and the
requested kind, run the `IPV6_V6ONLY` switch on the constraint, bind. -/
def createListener (w : World) (sys : ListenerSyscalls) (address : String) (port : Nat)
    (socketType : Nat) (c : IPVersionConstraint) : RunResult Unit × List NetEvent :=
  match construct_sockaddr true w address port c with
  | .error e => (.exited e, [])
  | .ok .srcCrash => (.undef, [])
  | .ok (.uninit _) => (.undef, [])
  | .ok (.addr a) =>
    let tr0 := [NetEvent.socketCall a.sa_family socketType]
    if sys.socket_ok then
      let afterOpts : RunResult Unit × List NetEvent :=
        match c with
        | .NONE =>
          if a.sa_family = AF_INET6 then
            (if sys.setsockopt_ok then (.ok (), tr0 ++ [NetEvent.setV6Only false])
             else (.exited ⟨msg_v6only_disable_fail, none, .failure⟩,
                   tr0 ++ [NetEvent.setV6Only false]))
          else (.ok (), tr0)
        | .FOUR => (.ok (), tr0)
        | .SIX =>
          if sys.setsockopt_ok then (.ok (), tr0 ++ [NetEvent.setV6Only true])
          else (.exited ⟨msg_v6only_enable_fail, none, .failure⟩,
                tr0 ++ [NetEvent.setV6Only true])
      match afterOpts with
      | (.ok _, tr1) =>
        match sys.bind_errno with
        | none => (.ok (), tr1 ++ [NetEvent.bindCall a])
        | some e => (.exited (listenerBindExit port e), tr1 ++ [NetEvent.bindCall a])
      | other => other
    else (.exited ⟨msg_listener_socket_fail, none, .failure⟩, tr0)

/-! ## accept -/

def msg_accept_aborted : String := "TCP listener accept connection failed, connection aborted"
def msg_accept_unknown : String := "TCP listener accept connection failed, unknown reason"

/-- One possible return of the `::accept` syscall: a connected socket
descriptor, or `-1` with the given error code. -/
inductive AcceptResult where
  | conn (fd : Nat)
  | err (code : Int)
deriving DecidableEq, Repr

/-- `NetworkShepherd::accept` (lines 251-265) against a stream of
possible `::accept` outcomes.  The source performs exactly one `::accept`
call: `ECONNABORTED` gets its own message and terminates, anything else
terminates with the unknown message and the raw code.  `none` means the
oracle supplied no outcome. -/
def NS_accept : List AcceptResult → Option (RunResult Nat)
  | [] => none
  | .conn fd :: _ => some (.ok fd)
  | .err e :: _ =>
    if e = ECONNABORTED then some (.exited ⟨msg_accept_aborted, none, .failure⟩)
    else some (.exited ⟨msg_accept_unknown, some e, .failure⟩)

/-! ## bindCommunicatorToSource and createCommunicatorAndConnect -/

def msg_nport_fail : String := "failed to enable IP_BIND_ADDRESS_NO_PORT on communicator with setsockopt"
def msg_bindC_perm : String := "permission to bind communicator to source address+port denied by local system"
def msg_bindC_ephemeral : String := "bind communicator failed, no ephemeral source ports available"
def msg_bindC_occupied : String := "bind communicator failed, source port occupied"
def msg_bindC_unknown : String := "bind communicator failed, unknown reason"
def msg_comm_socket_fail : String := "failed to construct TCP connection communicator socket"
def msg_conn_blocked : String := "failed to connect, local system blocked attempt"
def msg_conn_ephemeral : String := "failed to connect, no ephemeral ports available"
def msg_conn_refused : String := "failed to connect, connection refused"
def msg_conn_netunreach : String := "failed to connect, network unreachable"
def msg_conn_netdown : String := "failed to connect, network down"
def msg_conn_hostunreach : String := "failed to connect, host unreachable"
def msg_conn_timeout : String := "failed to connect, connection attempt timed out"
def msg_conn_unknown : String := "failed to connect, unknown reason"

/-- Success/failure of the syscalls on the connect path. -/
structure ConnectSyscalls where
  socket_ok : Bool
  bind_nport_ok : Bool
  bind_errno : Option Int
  connect_errno : Option Int
deriving Repr

/-- The `bind` error switch of `bindCommunicatorToSource`
(lines 286-310). -/
def communicatorBindExit (sourcePort : Nat) (e : Int) : ProgExit :=
  if e = EACCES then ⟨msg_bindC_perm, none, .failure⟩
  else if e = EADDRINUSE then
    (if sourcePort = 0 then ⟨msg_bindC_ephemeral, none, .failure⟩
     else ⟨msg_bindC_occupied, none, .failure⟩)
  else ⟨msg_bindC_unknown, some e, .failure⟩

/-- `bindCommunicatorToSource` (lines 267-311): resolve the source with
interface recognition, enable `IP_BIND_ADDRESS_NO_PORT`, bind.  (The bind
syscall runs whatever the resolved `sockaddr` contents are, so its
outcome is taken from the oracle in every resolution-success case.) -/
def bindCommunicatorToSource (w : World) (sys : ConnectSyscalls) (sourceAddress : String)
    (sourcePort : Nat) (c : IPVersionConstraint) : Except ProgExit Unit :=
  match construct_sockaddr true w sourceAddress sourcePort c with
  | .error e => .error e
  | .ok _ =>
    if sys.bind_nport_ok then
      match sys.bind_errno with
      | none => .ok ()
      | some e => .error (communicatorBindExit sourcePort e)
    else .error ⟨msg_nport_fail, none, .failure⟩

/-- The `connect` error switch of `createCommunicatorAndConnect`
(lines 329-392), POSIX arm.  Every case exits with `EXIT_FAILURE`. -/
def connectErrorExit (e : Int) : ProgExit :=
  if e = EACCES ∨ e = EPERM then ⟨msg_conn_blocked, none, .failure⟩
  else if e = EADDRNOTAVAIL then ⟨msg_conn_ephemeral, none, .failure⟩
  else if e = ECONNREFUSED then ⟨msg_conn_refused, none, .failure⟩
  else if e = ENETUNREACH then ⟨msg_conn_netunreach, none, .failure⟩
  else if e = ENETDOWN then ⟨msg_conn_netdown, none, .failure⟩
  else if e = EHOSTUNREACH then ⟨msg_conn_hostunreach, none, .failure⟩
  else if e = ETIMEDOUT then ⟨msg_conn_timeout, none, .failure⟩
  else ⟨msg_conn_unknown, some e, .failure⟩

/-- The optional source-bind step of `createCommunicatorAndConnect`
(lines 319-327): under `NONE` the bind is dispatched on the resolved
target family (the `switch` has no arm for other families, so the bind is
skipped there); under an explicit constraint that constraint is passed
through. -/
def communicatorBindPhase (w : World) (sys : ConnectSyscalls) (sourceAddress : Option String)
    (sourcePort : Nat) (c : IPVersionConstraint) (targetFamily : Nat) :
    Except ProgExit Unit :=
  match sourceAddress with
  | none => .ok ()
  | some src =>
    match c with
    | .NONE =>
      if targetFamily = AF_INET then bindCommunicatorToSource w sys src sourcePort .FOUR
      else if targetFamily = AF_INET6 then bindCommunicatorToSource w sys src sourcePort .SIX
      else .ok ()
    | other => bindCommunicatorToSource w sys src sourcePort other

/-- `NetworkShepherd::createCommunicatorAndConnect` (lines 313-393):
resolve the destination in hostname-only mode, create the socket, run the
optional source bind, then connect. -/
def createCommunicatorAndConnect (w : World) (sys : ConnectSyscalls)
    (destinationAddress : String) (destinationPort : Nat) (sourceAddress : Option String)
    (sourcePort : Nat) (c : IPVersionConstraint) : RunResult Unit :=
  match construct_sockaddr false w destinationAddress destinationPort c with
  | .error e => .exited e
  | .ok .srcCrash => .undef
  | .ok (.uninit _) => .undef
  | .ok (.addr target) =>
    if sys.socket_ok then
      match communicatorBindPhase w sys sourceAddress sourcePort c target.sa_family with
      | .error e => .exited e
      | .ok _ =>
        match sys.connect_errno with
        | none => .ok ()
        | some e => .exited (connectErrorExit e)
    else .exited ⟨msg_comm_socket_fail, none, .failure⟩

/-! ## The TCP write loop -/

def msg_send_reset : String := "failed to send on communicator socket, connection reset"
def msg_send_unknown : String := "failed to send on communicator socket, unknown reason"

/-- One return of the `send` syscall: `ret r` is the raw return value `r`
(a byte count), `err code` is a `-1` return with `errno = code`. -/
inductive SendResult where
  | ret (r : Int)
  | err (code : Int)
deriving DecidableEq, Repr

def rawOf : SendResult → Int
  | .ret r => r
  | .err _ => -1

/-- One `send` call as issued by the write loop: the cursor position into
the original buffer, the requested length, and the flags argument. -/
structure SendEvent where
  offset : Nat
  len : Nat
  flags : Nat
deriving DecidableEq, Repr

inductive WriteOutcome where
  | completed (trace : List SendEvent) (sent : List Nat)
  | fatal (e : ProgExit) (trace : List SendEvent) (sent : List Nat)
deriving DecidableEq, Repr

/-- The `send` error switch of `NetworkShepherd::write` (lines 453-478),
POSIX arm.  `ECONNRESET` and `EPIPE` report connection reset; the POSIX
`case ETIMEDOUT:` label has no statement before the `#else`, so it falls
through to `default:` (unknown reason with the raw code). -/
def sendErrorExit (e : Int) : ProgExit :=
  if e = ECONNRESET ∨ e = EPIPE then ⟨msg_send_reset, none, .failure⟩
  else ⟨msg_send_unknown, some e, .failure⟩

/-- The `while (true)` loop of `NetworkShepherd::write` (lines 441-541)
against a stream of `send` outcomes.  `buffer` is the byte buffer,
`offset` the cursor (`byte_buffer - buffer`), `size` the running
`buffer_size`.  The `bytesWritten == buffer_size` comparison converts the
signed return to `size_t`, modelled as equality modulo `2 ^ 64`; the
`buffer_size -= bytesWritten` update is `size_t` arithmetic, modelled the
same way.  `sent` accumulates the bytes handed to the kernel, in order.
`none` means the oracle stream was exhausted while the loop was still
running. -/
def NS_write_loop (buffer : List Nat) :
    List SendResult → Nat → Nat → List SendEvent → List Nat → Option WriteOutcome
  | [], _, _, _, _ => none
  | s :: rest, offset, size, trace, sent =>
    let trace2 := trace ++ [⟨offset, size, MSG_NOSIGNAL⟩]
    if (rawOf s) % (2 ^ 64) = ((size : Int)) % (2 ^ 64) then
      some (.completed trace2 (sent ++ (buffer.drop offset).take size))
    else
      match s with
      | .err code => some (.fatal (sendErrorExit code) trace2 sent)
      | .ret r =>
        NS_write_loop buffer rest (offset + r.toNat)
          ((((size : Int) - r) % (2 ^ 64)).toNat)
          trace2 (sent ++ (buffer.drop offset).take r.toNat)

/-- `NetworkShepherd::write(buffer, buffer_size)`. -/
def NS_write (buffer : List Nat) (oracle : List SendResult) : Option WriteOutcome :=
  NS_write_loop buffer oracle 0 buffer.length [] []

/-- Realistic `send` behaviour: each non-error return is between 0 and
the number of bytes that were requested at that point of the loop. -/
def wfOracle : List SendResult → Nat → Bool
  | [], _ => true
  | .err _ :: _, _ => true
  | .ret r :: rest, n => decide (0 ≤ r) && decide (r ≤ (n : Int)) && wfOracle rest (n - r.toNat)

def flagsOK (trace : List SendEvent) : Prop := ∀ ev ∈ trace, ev.flags = MSG_NOSIGNAL

/-- A transfer-error termination: one of the write loop's two messages,
with the failure exit status. -/
def isTransferExit (e : ProgExit) : Prop :=
  (e.msg = msg_send_reset ∨ e.msg = msg_send_unknown) ∧ e.exitCode = .failure

/-- Postcondition of the write loop: a normal return transmitted the
whole buffer in order, a fatal outcome is a transfer error; every send
requested `MSG_NOSIGNAL`. -/
def WriteLoopPost (buffer : List Nat) : Option WriteOutcome → Prop
  | none => True
  | some (.completed trace sent) => sent = buffer ∧ flagsOK trace
  | some (.fatal e trace _) => isTransferExit e ∧ flagsOK trace

/-! ## MSS approximation -/

def msg_mtu_fail : String := "failed to get MTU from UDP sender socket with getsockopt"

/-- `NetworkShepherd::getMSSApproximation` (lines 615-638): query the MTU
for the sender's address family (`mtuResult = none` models a failing
`getsockopt`), then return `MTU - 40 - 8` for `AF_INET6` and
`MTU - 20 - 8` otherwise, converted to `uint16_t` (reduction modulo
`2 ^ 16`). -/
def getMSSApproximation (udpSenderAddressFamily : Nat) (mtuResult : Option Int) :
    Except ProgExit Nat :=
  match mtuResult with
  | none => .error ⟨msg_mtu_fail, none, .failure⟩
  | some MTU =>
    .ok (if udpSenderAddressFamily = AF_INET6
         then ((MTU - 40 - 8) % (2 ^ 16)).toNat
         else ((MTU - 20 - 8) % (2 ^ 16)).toNat)

/-! ## Error-code rendering (`src/error_reporting.h`) -/

def MAX_DIGITS_IN_SIGNED_INT32 : Nat := 11

def digitChar (d : Nat) : Char := Char.ofNat (48 + d)

/-- The `while (positive_errorCode != 0)` digit loop of
`writeErrorAndCodeAndExit` (lines 39-43), prepending digits into the
11-byte `digits` buffer.  The first argument is the remaining buffer
space, which bounds the iteration count (the source writes at most
`MAX_DIGITS_IN_SIGNED_INT32` characters). -/
def pushDigits : Nat → Nat → List Char → List Char
  | 0, _, acc => acc
  | _ + 1, 0, acc => acc
  | fuel + 1, n, acc => pushDigits fuel (n / 10) (digitChar (n % 10) :: acc)

/-- The characters `writeErrorAndCodeAndExit` (lines 22-51) writes for
the error code: `errorCode_negative = errorCode < 0`;
`positive_errorCode = (long long)errorCode * (-1 * errorCode_negative)`
(the boolean promotes to `0` or `1`, so the factor is `0` or `-1`); one
unrolled digit extraction, the digit loop, then a leading minus sign when
negative. -/
def renderErrorCode (errorCode : Int) : List Char :=
  let errorCode_negative : Bool := decide (errorCode < 0)
  let positive_errorCode : Nat :=
    (errorCode * (-1 * (if errorCode_negative then 1 else 0))).toNat
  let acc1 : List Char := [digitChar (positive_errorCode % 10)]
  let allDigits : List Char := pushDigits (MAX_DIGITS_IN_SIGNED_INT32 - 1)
    (positive_errorCode / 10) acc1
  if errorCode_negative then '-' :: allDigits else allDigits

/-- Read a character sequence back as a signed decimal numeral. -/
def decodeDigits (l : List Char) : Nat :=
  l.foldl (fun acc c => acc * 10 + (c.toNat - 48)) 0

def decodeSignedDecimal : List Char → Int
  | '-' :: rest => -(decodeDigits rest : Int)
  | l => (decodeDigits l : Int)

/-! ## Flag validation (`src/main.cpp`) -/

def msg_v_broadcast_listen : String := "broadcast isn't allowed when listening"
def msg_v_k_with_u : String := "\"-k\" cannot be specified with \"-u\""
def msg_v_backlog_without_k : String := "\"--backlog\" cannot be specified without \"-k\""
def msg_v_source_listen : String := "\"--source\" may not be used when listening"
def msg_v_port_listen : String := "\"--port\" may not be used when listening unless the specified source port is 0"
def msg_v_k_without_l : String := "\"-k\" cannot be specified without \"-l\""
def msg_v_broadcast_udp : String := "broadcast is only allowed when sending UDP packets"
def msg_v_port_source : String := "\"--port\" cannot be specified without \"--source\" unless the specified source port is 0"

/-- The flag state accumulated by the command-line parser
(`namespace flags`, lines 51-64 of `src/main.cpp`). -/
structure Flags where
  sourceIP : Option String
  sourcePort : Nat
  ipvc : IPVersionConstraint
  shouldListen : Bool
  shouldKeepListening : Bool
  backlog : Int
  shouldUseUDP : Bool
  allowBroadcast : Bool
deriving Repr

/-- The trailing checks of `validateFlagRelationships` (lines 154-160),
shared by the listen and non-listen branches. -/
def validateTail (f : Flags) : Except ProgExit Unit :=
  if !f.shouldUseUDP && f.allowBroadcast then .error ⟨msg_v_broadcast_udp, none, .success⟩
  else if f.sourceIP.isNone && f.sourcePort != 0 then
    .error ⟨msg_v_port_source, none, .success⟩
  else .ok ()

/-- `validateFlagRelationships` (lines 136-161).  Every check reports
with `EXIT_SUCCESS` — these are argument errors. -/
def validateFlagRelationships (f : Flags) : Except ProgExit Unit :=
  if f.shouldListen then
    if f.allowBroadcast then .error ⟨msg_v_broadcast_listen, none, .success⟩
    else if f.shouldKeepListening && f.shouldUseUDP then
      .error ⟨msg_v_k_with_u, none, .success⟩
    else if !f.shouldKeepListening && f.backlog != -1 then
      .error ⟨msg_v_backlog_without_k, none, .success⟩
    else if f.sourceIP.isSome then .error ⟨msg_v_source_listen, none, .success⟩
    else if f.sourcePort != 0 then .error ⟨msg_v_port_listen, none, .success⟩
    else validateTail f
  else if f.shouldKeepListening then .error ⟨msg_v_k_without_l, none, .success⟩
  else validateTail f

/-! ## Concrete fixtures (worlds and oracles used at concrete inputs) -/

/-- A name database entry with one IPv4 and one IPv6 candidate, the IPv4
one first; no interface enumeration. -/
def fixtureDual : World :=
  ⟨none, fun s => if s = "dual.host" then
    some ⟨false, [⟨AF_INET, [1, 2, 3, 4]⟩, ⟨AF_INET6, [0, 1]⟩]⟩ else none⟩

/-- Two local interfaces, neither named "localhost"; the name database
resolves "localhost" to 127.0.0.1. -/
def fixtureLocalhost : World :=
  ⟨some [⟨"eth0", some ⟨AF_INET, [10, 0, 0, 1]⟩⟩, ⟨"lo", some ⟨AF_INET, [127, 0, 0, 1]⟩⟩],
   fun s => if s = "localhost" then some ⟨false, [⟨AF_INET, [127, 0, 0, 1]⟩]⟩ else none⟩

/-- A host name with only an IPv6 candidate. -/
def fixtureV6Only : World :=
  ⟨none, fun s => if s = "v6only.host" then some ⟨false, [⟨AF_INET6, [0, 1]⟩]⟩ else none⟩

/-- A numeric IPv4 literal. -/
def fixtureNumeric4 : World :=
  ⟨none, fun s => if s = "10.0.0.5" then some ⟨true, [⟨AF_INET, [10, 0, 0, 5]⟩]⟩ else none⟩

/-- A numeric IPv6 literal. -/
def fixtureNumeric6 : World :=
  ⟨none, fun s => if s = "::1" then some ⟨true, [⟨AF_INET6, [0, 1]⟩]⟩ else none⟩

/-- An interface list whose last entry is the only one named "tail0";
the name database does not know "tail0". -/
def fixtureLastIf : World :=
  ⟨some [⟨"eth0", some ⟨AF_INET, [10, 0, 0, 1]⟩⟩, ⟨"tail0", some ⟨AF_INET, [10, 0, 0, 2]⟩⟩],
   fun _ => none⟩

def listenerSysOK : ListenerSyscalls := ⟨true, true, none⟩

def connectSysRefused : ConnectSyscalls := ⟨true, true, none, some ECONNREFUSED⟩

def connectSysOK : ConnectSyscalls := ⟨true, true, none, none⟩

/-! ## Helper lemmas -/

theorem gaiErrorExit_failure (e : Int) : (gaiErrorExit e).exitCode = .failure := by
  unfold gaiErrorExit; split_ifs <;> rfl

theorem gaiErrorExit_msg_ne_no_ip (e : Int) : (gaiErrorExit e).msg ≠ msg_no_ip_addresses := by
  unfold gaiErrorExit; split_ifs <;> decide

theorem addrinfoPhase_error_shape (w : World) (node : String) (port : Nat)
    (c : IPVersionConstraint) (numericOnly : Bool) (e : ProgExit)
    (h : addrinfoPhase w node port c numericOnly = .error e) :
    ∃ g, e = gaiErrorExit g := by
  unfold addrinfoPhase at h
  split at h
  · exact ⟨_, ((Except.error.injEq _ _).mp h).symm⟩
  · split at h <;> simp_all

theorem construct_sockaddr_error_shape (ri : Bool) (w : World) (node : String) (port : Nat)
    (c : IPVersionConstraint) (e : ProgExit)
    (h : construct_sockaddr ri w node port c = .error e) :
    ∃ g, e = gaiErrorExit g := by
  unfold construct_sockaddr at h
  split at h
  · split at h
    · split at h
      · simp_all
      · exact addrinfoPhase_error_shape _ _ _ _ _ _ h
    · exact addrinfoPhase_error_shape _ _ _ _ _ _ h
  · exact addrinfoPhase_error_shape _ _ _ _ _ _ h

theorem construct_sockaddr_error_failure (ri : Bool) (w : World) (node : String) (port : Nat)
    (c : IPVersionConstraint) (e : ProgExit)
    (h : construct_sockaddr ri w node port c = .error e) : e.exitCode = .failure := by
  obtain ⟨g, rfl⟩ := construct_sockaddr_error_shape ri w node port c e h
  exact gaiErrorExit_failure g

theorem communicatorBindExit_failure (p : Nat) (e : Int) :
    (communicatorBindExit p e).exitCode = .failure := by
  unfold communicatorBindExit; split_ifs <;> rfl

theorem bindCommunicatorToSource_error_failure (w : World) (sys : ConnectSyscalls)
    (src : String) (sp : Nat) (c : IPVersionConstraint) (e : ProgExit)
    (h : bindCommunicatorToSource w sys src sp c = .error e) : e.exitCode = .failure := by
  unfold bindCommunicatorToSource at h
  split at h
  case _ e2 heq =>
    injection h with h
    subst h
    exact construct_sockaddr_error_failure _ _ _ _ _ _ heq
  case _ =>
    split at h
    · split at h
      · exact absurd h (by simp)
      case _ e2 heq =>
        injection h with h
        subst h
        exact communicatorBindExit_failure _ _
    · injection h with h
      subst h
      rfl

theorem connectErrorExit_failure (e : Int) : (connectErrorExit e).exitCode = .failure := by
  unfold connectErrorExit; split_ifs <;> rfl

theorem communicatorBindPhase_error_failure (w : World) (sys : ConnectSyscalls)
    (sa : Option String) (sp : Nat) (c : IPVersionConstraint) (tf : Nat) (e : ProgExit)
    (h : communicatorBindPhase w sys sa sp c tf = .error e) : e.exitCode = .failure := by
  unfold communicatorBindPhase at h
  split at h
  · exact absurd h (by simp)
  · split at h
    · split_ifs at h
      any_goals exact bindCommunicatorToSource_error_failure _ _ _ _ _ _ h
    · exact bindCommunicatorToSource_error_failure _ _ _ _ _ _ h

/-! ## Claim theorems -/

/-- C1 counterexample: a TCP connect against a user-supplied address that
the peer refuses (`ECONNREFUSED`) terminates the process with the failure
exit code, not the success exit code the claim asserts for
user-input-shaped network failures. -/
theorem nc_c1_cex :
    createCommunicatorAndConnect fixtureNumeric4 connectSysRefused "10.0.0.5" 80 none 0 .NONE
      = .exited ⟨msg_conn_refused, none, .failure⟩ ∧
    ExitCode.failure ≠ ExitCode.success := ⟨rfl, by decide⟩

/-- C1 (amended): every failure reported by `validateFlagRelationships`
(argument-validation conflicts) exits with the success code, while every
failure on the connect path — including network failures against the
user-supplied address, such as a refused or unreachable peer — and every
`connect` error category exits with the failure code. -/
theorem nc_c1 :
    (∀ (f : Flags) (e : ProgExit),
      validateFlagRelationships f = .error e → e.exitCode = .success) ∧
    (∀ e : Int, (connectErrorExit e).exitCode = .failure) ∧
    (∀ (w : World) (sys : ConnectSyscalls) (d : String) (dp : Nat) (s : Option String)
      (sp : Nat) (c : IPVersionConstraint) (e : ProgExit),
      createCommunicatorAndConnect w sys d dp s sp c = .exited e →
      e.exitCode = .failure) := by
  refine ⟨?_, connectErrorExit_failure, ?_⟩
  · intro f e h
    unfold validateFlagRelationships validateTail at h
    split_ifs at h <;> (injection h with h; subst h; rfl)
  · intro w sys d dp s sp c e h
    unfold createCommunicatorAndConnect at h
    split at h
    case _ e2 heq =>
      injection h with h
      subst h
      exact construct_sockaddr_error_failure _ _ _ _ _ _ heq
    · exact absurd h (by simp)
    · exact absurd h (by simp)
    · split_ifs at h
      · split at h
        case _ e2 heq =>
          injection h with h
          subst h
          exact communicatorBindPhase_error_failure _ _ _ _ _ _ _ heq
        · split at h
          · exact absurd h (by simp)
          case _ e2 heq =>
            injection h with h
            subst h
            exact connectErrorExit_failure _
      · injection h with h
        subst h
        rfl

/-- C1 witness: the amended theorem applied at a concrete conflicting
flag set (listen with broadcast) and at the refused-connect error. -/
theorem nc_c1_witness :
    validateFlagRelationships ⟨none, 0, .NONE, true, false, -1, true, true⟩
      = .error ⟨msg_v_broadcast_listen, none, .success⟩ ∧
    (⟨msg_v_broadcast_listen, none, ExitCode.success⟩ : ProgExit).exitCode = .success ∧
    (connectErrorExit ECONNREFUSED).exitCode = .failure :=
  ⟨rfl, nc_c1.1 ⟨none, 0, .NONE, true, false, -1, true, true⟩ _ rfl, nc_c1.2.1 ECONNREFUSED⟩

/-- C7 counterexample: when `::accept` fails with `ECONNABORTED` (the
recoverable "connection aborted before accept completed" condition) and a
peer connection would be available on retry, `NetworkShepherd::accept`
does not retry: it terminates the process with the aborted message and
the failure exit code instead of yielding the communicator. -/
theorem nc_c7_cex :
    NS_accept [.err ECONNABORTED, .conn 7]
      = some (.exited ⟨msg_accept_aborted, none, .failure⟩) ∧
    NS_accept [.err ECONNABORTED, .conn 7] ≠ some (.ok 7) := ⟨rfl, by decide⟩

/-- C7 (amended): `accept` never retries — its result is determined by
the first `::accept` outcome alone; any failing outcome terminates the
process (never yields a communicator), `ECONNABORTED` with the distinct
aborted message and every other code with the unknown message carrying
the raw code, both with the failure exit status. -/
theorem nc_c7 (e : Int) (rest : List AcceptResult) :
    NS_accept (.err e :: rest) = NS_accept [.err e] ∧
    (∀ fd : Nat, NS_accept (.err e :: rest) ≠ some (.ok fd)) ∧
    (e = ECONNABORTED →
      NS_accept (.err e :: rest) = some (.exited ⟨msg_accept_aborted, none, .failure⟩)) ∧
    (e ≠ ECONNABORTED →
      NS_accept (.err e :: rest) = some (.exited ⟨msg_accept_unknown, some e, .failure⟩)) := by
  refine ⟨rfl, ?_, ?_, ?_⟩
  · intro fd
    by_cases he : e = ECONNABORTED <;> simp [NS_accept, he]
  · intro he; simp [NS_accept, he]
  · intro he; simp [NS_accept, he]

/-- C7 witness: the amended theorem applied at `ECONNABORTED` with a
pending connection behind it. -/
theorem nc_c7_witness :
    ECONNABORTED = ECONNABORTED ∧
    NS_accept [.err ECONNABORTED, .conn 7]
      = some (.exited ⟨msg_accept_aborted, none, .failure⟩) :=
  ⟨rfl, (nc_c7 ECONNABORTED [.conn 7]).2.2.1 rfl⟩

/-- C8: for every OS-reported MTU value `M`, `getMSSApproximation`
returns `M - 28` (20 + 8 header overhead) for an IPv4 UDP sender and
`M - 48` (40 + 8) for an IPv6 one, as a 16-bit unsigned value (reduction
modulo `2 ^ 16`); within the 16-bit range the value is exactly `M - 28`
resp. `M - 48`. -/
theorem nc_c8 (M : Int) :
    getMSSApproximation AF_INET (some M) = .ok (((M - 28) % (2 ^ 16)).toNat) ∧
    getMSSApproximation AF_INET6 (some M) = .ok (((M - 48) % (2 ^ 16)).toNat) ∧
    (∀ V : Nat, 28 ≤ V → V ≤ 65563 →
      getMSSApproximation AF_INET (some (V : Int)) = .ok (V - 28)) ∧
    (∀ V : Nat, 48 ≤ V → V ≤ 65583 →
      getMSSApproximation AF_INET6 (some (V : Int)) = .ok (V - 48)) := by
  have h2 : (2 : Int) ^ 16 = 65536 := by norm_num
  have e4 : ∀ N : Int, getMSSApproximation AF_INET (some N)
      = .ok (((N - 20 - 8) % (2 ^ 16)).toNat) := fun _ => rfl
  have e6 : ∀ N : Int, getMSSApproximation AF_INET6 (some N)
      = .ok (((N - 40 - 8) % (2 ^ 16)).toNat) := fun _ => rfl
  refine ⟨?_, ?_, ?_, ?_⟩
  · rw [e4, show M - 20 - 8 = M - 28 from by ring]
  · rw [e6, show M - 40 - 8 = M - 48 from by ring]
  · intro V h28 hle
    rw [e4, h2]
    congr 1
    omega
  · intro V h48 hle
    rw [e6, h2]
    congr 1
    omega

/-- C8 witness: the theorem applied at the standard Ethernet MTU 1500. -/
theorem nc_c8_witness :
    28 ≤ 1500 ∧ 1500 ≤ 65563 ∧
    getMSSApproximation AF_INET (some (1500 : Int)) = .ok 1472 :=
  ⟨by decide, by decide, (nc_c8 0).2.2.1 1500 (by decide) (by decide)⟩

/-- C9: the error-code renderer of `writeErrorAndCodeAndExit` is broken
for positive codes: `positive_errorCode` is computed as
`errorCode * (-1 * errorCode_negative)`, which multiplies every
non-negative code by zero, so the platform error code 111
(`ECONNREFUSED`) is rendered as the single character "0" and decodes to
0, not 111; negative codes (and zero) still render correctly. -/
theorem nc_c9_bug :
    renderErrorCode 111 = ['0'] ∧
    decodeSignedDecimal (renderErrorCode 111) = 0 ∧
    (0 : Int) ≠ 111 ∧
    renderErrorCode 0 = ['0'] ∧
    renderErrorCode (-71) = ['-', '7', '1'] ∧
    decodeSignedDecimal (renderErrorCode (-71)) = -71 := by decide


theorem dropLast_cons_cons (a b : Ifaddr) (rest : List Ifaddr) :
    (a :: b :: rest).dropLast = a :: (b :: rest).dropLast := rfl

theorem ifaddrLoop_eq_scan_dropLast (node : String) (port : Nat) (c : IPVersionConstraint) :
    ∀ l : List Ifaddr, ifaddrLoop node port c l = ifaddrScan node port c l.dropLast
  | [] => rfl
  | [_] => rfl
  | a :: b :: rest => by
    have ih := ifaddrLoop_eq_scan_dropLast node port c (b :: rest)
    rw [dropLast_cons_cons]
    show (match ifaddrEntryPick node port c a with
          | some r => some r
          | none => ifaddrLoop node port c (b :: rest)) = _
    cases hp : ifaddrEntryPick node port c a <;> simp [ifaddrScan, hp, ih]

theorem ifaddrEntryPick_none_of_name (node : String) (port : Nat) (c : IPVersionConstraint)
    (a : Ifaddr) (h : a.ifa_name ≠ node) : ifaddrEntryPick node port c a = none := by
  unfold ifaddrEntryPick
  rw [if_neg h]

theorem ifaddrScan_none (node : String) (port : Nat) (c : IPVersionConstraint) :
    ∀ l : List Ifaddr, (∀ a ∈ l, ifaddrEntryPick node port c a = none) →
      ifaddrScan node port c l = none
  | [], _ => rfl
  | a :: rest, h => by
    show (match ifaddrEntryPick node port c a with
          | some r => some r
          | none => ifaddrScan node port c rest) = none
    rw [h a (by simp)]
    exact ifaddrScan_none node port c rest (fun x hx => h x (by simp [hx]))

theorem ifaddrEntryPick_four_family (node : String) (port : Nat) (a : Ifaddr) (r : SockAddr)
    (h : ifaddrEntryPick node port .FOUR a = some r) : r.sa_family = AF_INET := by
  obtain ⟨name, payload⟩ := a
  cases payload with
  | none =>
    rw [show ifaddrEntryPick node port .FOUR ⟨name, none⟩
        = if name = node then none else none from rfl] at h
    split_ifs at h
  | some p =>
    rw [show ifaddrEntryPick node port .FOUR ⟨name, some p⟩
        = if name = node then
            (if p.family = AF_INET then some (stampPort p.family p.addr port) else none)
          else none from rfl] at h
    split_ifs at h with h1 h2
    all_goals (injection h with h; subst h; assumption)

theorem ifaddrEntryPick_six_family (node : String) (port : Nat) (a : Ifaddr) (r : SockAddr)
    (h : ifaddrEntryPick node port .SIX a = some r) : r.sa_family = AF_INET6 := by
  obtain ⟨name, payload⟩ := a
  cases payload with
  | none =>
    rw [show ifaddrEntryPick node port .SIX ⟨name, none⟩
        = if name = node then none else none from rfl] at h
    split_ifs at h
  | some p =>
    rw [show ifaddrEntryPick node port .SIX ⟨name, some p⟩
        = if name = node then
            (if p.family = AF_INET6 then some (stampPort p.family p.addr port) else none)
          else none from rfl] at h
    split_ifs at h with h1 h2
    all_goals (injection h with h; subst h; assumption)

theorem ifaddrScan_four_family (node : String) (port : Nat) (r : SockAddr) :
    ∀ l : List Ifaddr, ifaddrScan node port .FOUR l = some r → r.sa_family = AF_INET
  | [], h => by simp [ifaddrScan] at h
  | a :: rest, h => by
    revert h
    show (match ifaddrEntryPick node port .FOUR a with
          | some x => some x
          | none => ifaddrScan node port .FOUR rest) = some r → _
    cases hp : ifaddrEntryPick node port .FOUR a with
    | some x =>
      intro h
      injection h with h
      subst h
      exact ifaddrEntryPick_four_family node port a _ hp
    | none => exact ifaddrScan_four_family node port r rest

theorem ifaddrScan_six_family (node : String) (port : Nat) (r : SockAddr) :
    ∀ l : List Ifaddr, ifaddrScan node port .SIX l = some r → r.sa_family = AF_INET6
  | [], h => by simp [ifaddrScan] at h
  | a :: rest, h => by
    revert h
    show (match ifaddrEntryPick node port .SIX a with
          | some x => some x
          | none => ifaddrScan node port .SIX rest) = some r → _
    cases hp : ifaddrEntryPick node port .SIX a with
    | some x =>
      intro h
      injection h with h
      subst h
      exact ifaddrEntryPick_six_family node port a _ hp
    | none => exact ifaddrScan_six_family node port r rest

theorem getaddrinfo_model_ok_inversion (w : World) (node : String) (family : Nat) (no : Bool)
    (cands : List AddrCandidate) (h : getaddrinfo_model w node family no = .ok cands) :
    ∃ entry, w.dns node = some entry ∧ (no && !entry.isNumeric) = false ∧
      cands = gaiCandidates entry family ∧ cands ≠ [] := by
  unfold getaddrinfo_model at h
  split at h
  · exact absurd h (by simp)
  case _ entry heq =>
    split_ifs at h with hn hemp
    injection h with h
    subst h
    refine ⟨entry, heq, by simpa using hn, rfl, ?_⟩
    simpa [List.isEmpty_iff] using hemp

theorem gaiCandidates_family (entry : DNSEntry) (family : Nat) (hf : family ≠ AF_UNSPEC) :
    ∀ a ∈ gaiCandidates entry family, a.sa_family = family := by
  intro a ha
  unfold gaiCandidates at ha
  rw [if_neg hf] at ha
  simpa using (List.mem_filter.mp ha).2

theorem getaddrinfo_model_family (w : World) (node : String) (family : Nat) (no : Bool)
    (cands : List AddrCandidate) (hf : family ≠ AF_UNSPEC)
    (h : getaddrinfo_model w node family no = .ok cands) :
    ∀ a ∈ cands, a.sa_family = family := by
  obtain ⟨entry, -, -, hc, -⟩ := getaddrinfo_model_ok_inversion w node family no cands h
  subst hc
  exact gaiCandidates_family entry family hf

theorem addrinfoLoop_four (a : AddrCandidate) (rest : List AddrCandidate) :
    addrinfoLoop .FOUR (a :: rest) = some (.picked a) := by
  cases rest <;> rfl

theorem addrinfoLoop_six (a : AddrCandidate) (rest : List AddrCandidate) :
    addrinfoLoop .SIX (a :: rest) = some (.picked a) := by
  cases rest <;> rfl

theorem addrinfoLoop_picked_mem (c : IPVersionConstraint) (a : AddrCandidate) :
    ∀ l : List AddrCandidate, addrinfoLoop c l = some (.picked a) → a ∈ l
  | [], h => by simp [addrinfoLoop] at h
  | [x], h => by
    unfold addrinfoLoop at h
    cases c with
    | NONE =>
      split_ifs at h
      all_goals simp_all
    | FOUR => simp_all
    | SIX => simp_all
  | x :: y :: rest, h => by
    unfold addrinfoLoop at h
    cases c with
    | NONE =>
      split_ifs at h
      · simp_all
      · simp_all
      · exact List.mem_cons_of_mem x (addrinfoLoop_picked_mem .NONE a (y :: rest) h)
    | FOUR => simp_all
    | SIX => simp_all

theorem addrinfoPhase_ok_addr_inversion (w : World) (node : String) (port : Nat)
    (c : IPVersionConstraint) (no : Bool) (x : SockAddr)
    (h : addrinfoPhase w node port c no = .ok (.addr x)) :
    ∃ cands a, getaddrinfo_model w node (hintFamily c) no = .ok cands ∧
      addrinfoLoop c cands = some (.picked a) ∧
      x = stampPort a.sa_family a.addr port := by
  unfold addrinfoPhase at h
  split at h
  · exact absurd h (by simp)
  case _ cands heq =>
    split at h
    case _ a hloop =>
      injection h with h
      injection h with h
      exact ⟨cands, a, heq, hloop, h.symm⟩
    · exact absurd h (by simp)
    · exact absurd h (by simp)

theorem addrinfoPhase_four_family (w : World) (node : String) (port : Nat) (no : Bool)
    (x : SockAddr) (h : addrinfoPhase w node port .FOUR no = .ok (.addr x)) :
    x.sa_family = AF_INET := by
  obtain ⟨cands, a, hg, hl, hx⟩ := addrinfoPhase_ok_addr_inversion w node port .FOUR no x h
  have hmem := addrinfoLoop_picked_mem .FOUR a cands hl
  have hfam := getaddrinfo_model_family w node (hintFamily .FOUR) no cands (by decide) hg a hmem
  subst hx
  exact hfam

theorem addrinfoPhase_six_family (w : World) (node : String) (port : Nat) (no : Bool)
    (x : SockAddr) (h : addrinfoPhase w node port .SIX no = .ok (.addr x)) :
    x.sa_family = AF_INET6 := by
  obtain ⟨cands, a, hg, hl, hx⟩ := addrinfoPhase_ok_addr_inversion w node port .SIX no x h
  have hmem := addrinfoLoop_picked_mem .SIX a cands hl
  have hfam := getaddrinfo_model_family w node (hintFamily .SIX) no cands (by decide) hg a hmem
  subst hx
  exact hfam

theorem construct_sockaddr_four_family (ri : Bool) (w : World) (node : String) (port : Nat)
    (x : SockAddr) (h : construct_sockaddr ri w node port .FOUR = .ok (.addr x)) :
    x.sa_family = AF_INET := by
  unfold construct_sockaddr at h
  split_ifs at h
  · split at h
    · split at h
      case _ a hloop =>
        injection h with h
        injection h with h
        subst h
        rw [ifaddrLoop_eq_scan_dropLast] at hloop
        exact ifaddrScan_four_family _ _ _ _ hloop
      · exact addrinfoPhase_four_family _ _ _ _ _ h
    · exact addrinfoPhase_four_family _ _ _ _ _ h
  · exact addrinfoPhase_four_family _ _ _ _ _ h

theorem construct_sockaddr_six_family (ri : Bool) (w : World) (node : String) (port : Nat)
    (x : SockAddr) (h : construct_sockaddr ri w node port .SIX = .ok (.addr x)) :
    x.sa_family = AF_INET6 := by
  unfold construct_sockaddr at h
  split_ifs at h
  · split at h
    · split at h
      case _ a hloop =>
        injection h with h
        injection h with h
        subst h
        rw [ifaddrLoop_eq_scan_dropLast] at hloop
        exact ifaddrScan_six_family _ _ _ _ hloop
      · exact addrinfoPhase_six_family _ _ _ _ _ h
    · exact addrinfoPhase_six_family _ _ _ _ _ h
  · exact addrinfoPhase_six_family _ _ _ _ _ h

theorem addrinfoLoop_none_cons (x : AddrCandidate) (rest : List AddrCandidate) :
    addrinfoLoop .NONE (x :: rest)
      = if x.sa_family = AF_INET6 then some (.picked x)
        else if x.sa_family = AF_INET then some (.picked x)
        else (match rest with
              | [] => some .garbage
              | y :: t => addrinfoLoop .NONE (y :: t)) := by
  cases rest <;> rfl

theorem isIPFamily_cases (f : Nat) (h : isIPFamily f = true) : f = AF_INET6 ∨ f = AF_INET := by
  simpa [isIPFamily] using h

theorem isIPFamily_ne (f : Nat) (h : ¬isIPFamily f = true) :
    f ≠ AF_INET6 ∧ f ≠ AF_INET := by
  constructor <;> (intro hf; exact h (by simp [isIPFamily, hf]))

theorem addrinfoLoop_none_first (a : AddrCandidate) :
    ∀ l : List AddrCandidate, firstIPCandidate l = some a →
      addrinfoLoop .NONE l = some (.picked a)
  | [], h => by simp [firstIPCandidate] at h
  | x :: rest, h => by
    rw [addrinfoLoop_none_cons]
    by_cases hip : isIPFamily x.sa_family = true
    · have hx : x = a := by
        rw [firstIPCandidate,
          @List.find?_cons_of_pos _ (fun (b : AddrCandidate) => isIPFamily b.sa_family)
            x rest hip] at h
        injection h
      subst hx
      rcases isIPFamily_cases _ hip with h6 | h4
      · rw [if_pos h6]
      · have h6 : x.sa_family ≠ AF_INET6 := by rw [h4]; decide
        rw [if_neg h6, if_pos h4]
    · have hrest : firstIPCandidate rest = some a := by
        rw [firstIPCandidate,
          @List.find?_cons_of_neg _ (fun (b : AddrCandidate) => isIPFamily b.sa_family)
            x rest hip] at h
        exact h
      obtain ⟨h6, h4⟩ := isIPFamily_ne _ hip
      rw [if_neg h6, if_neg h4]
      cases rest with
      | nil => simp [firstIPCandidate] at hrest
      | cons y t => exact addrinfoLoop_none_first a (y :: t) hrest

theorem ifaddrEntryPick_none_eq (node : String) (port : Nat) (name : String) (p : IfPayload) :
    ifaddrEntryPick node port .NONE ⟨name, some p⟩
      = if name = node then
          (if p.family = AF_INET6 then some (stampPort p.family p.addr port)
           else if p.family = AF_INET then some (stampPort p.family p.addr port)
           else none)
        else none := rfl

theorem ifaddrEntryPick_payload_none (node : String) (port : Nat) (c : IPVersionConstraint)
    (name : String) : ifaddrEntryPick node port c ⟨name, none⟩ = none := by
  unfold ifaddrEntryPick
  split_ifs <;> rfl

theorem ifaddrScan_none_first (node : String) (port : Nat) (p : IfPayload) :
    ∀ l : List Ifaddr,
      ((l.filterMap (ifPayloadOf node)).find? (fun q => isIPFamily q.family)) = some p →
      ifaddrScan node port .NONE l = some (stampPort p.family p.addr port)
  | [], h => by simp at h
  | a :: rest, h => by
    obtain ⟨name, payload⟩ := a
    show (match ifaddrEntryPick node port .NONE ⟨name, payload⟩ with
          | some r => some r
          | none => ifaddrScan node port .NONE rest) = _
    by_cases hn : name = node
    · cases payload with
      | none =>
        rw [ifaddrEntryPick_payload_none]
        refine ifaddrScan_none_first node port p rest ?_
        rw [List.filterMap_cons] at h
        simpa [ifPayloadOf, hn] using h
      | some q =>
        rw [ifaddrEntryPick_none_eq, if_pos hn]
        rw [List.filterMap_cons] at h
        rw [show ifPayloadOf node ⟨name, some q⟩ = some q from by simp [ifPayloadOf, hn]] at h
        by_cases hip : isIPFamily q.family = true
        · have hq : q = p := by
            rw [@List.find?_cons_of_pos _ (fun (b : IfPayload) => isIPFamily b.family)
              q (rest.filterMap (ifPayloadOf node)) hip] at h
            injection h
          subst hq
          rcases isIPFamily_cases _ hip with h6 | h4
          · rw [if_pos h6]
          · have h6 : q.family ≠ AF_INET6 := by rw [h4]; decide
            rw [if_neg h6, if_pos h4]
        · obtain ⟨h6, h4⟩ := isIPFamily_ne _ hip
          rw [if_neg h6, if_neg h4]
          rw [@List.find?_cons_of_neg _ (fun (b : IfPayload) => isIPFamily b.family)
            q (rest.filterMap (ifPayloadOf node)) hip] at h
          exact ifaddrScan_none_first node port p rest h
    · rw [ifaddrEntryPick_none_of_name node port .NONE ⟨name, payload⟩ hn]
      refine ifaddrScan_none_first node port p rest ?_
      rw [List.filterMap_cons] at h
      simpa [ifPayloadOf, hn] using h

theorem getaddrinfo_model_nonNumeric (w : World) (node : String) (f : Nat) (entry : DNSEntry)
    (hdns : w.dns node = some entry) (hnum : entry.isNumeric = false) :
    getaddrinfo_model w node f true = .error EAI_NONAME := by
  unfold getaddrinfo_model
  rw [hdns]
  simp [hnum]

theorem getaddrinfo_model_numeric_agrees (w : World) (node : String) (f : Nat)
    (entry : DNSEntry) (hdns : w.dns node = some entry) (hnum : entry.isNumeric = true) :
    getaddrinfo_model w node f true = getaddrinfo_model w node f false := by
  unfold getaddrinfo_model
  rw [hdns]
  simp [hnum]

theorem construct_sockaddr_hostname_eq (w : World) (node : String) (port : Nat)
    (c : IPVersionConstraint) :
    construct_sockaddr false w node port c = addrinfoPhase w node port c false := rfl

theorem construct_sockaddr_no_if_match (w : World) (node : String) (port : Nat)
    (c : IPVersionConstraint)
    (hno : ∀ l, w.ifaddrs = some l → ∀ a ∈ l, a.ifa_name ≠ node) :
    construct_sockaddr true w node port c = addrinfoPhase w node port c true := by
  unfold construct_sockaddr
  rw [if_pos rfl]
  cases hif : w.ifaddrs with
  | none => rfl
  | some l =>
    have hscan : ifaddrLoop node port c l = none := by
      rw [ifaddrLoop_eq_scan_dropLast]
      refine ifaddrScan_none node port c l.dropLast ?_
      intro a ha
      exact ifaddrEntryPick_none_of_name node port c a
        (hno l hif a (List.dropLast_subset l ha))
    simp only [hscan]

/-- C3 counterexample: resolving a host that has only IPv6 candidates
under the explicit `FOUR` constraint fails with the no-data lookup
category ("hostname does not possess any valid addresses"), not with the
distinct constraint-unsatisfied category ("hostname does not possess any
IP addresses"). -/
theorem nc_c3_cex :
    construct_sockaddr false fixtureV6Only "v6only.host" 80 .FOUR
      = .error ⟨msg_gai_nodata, none, .failure⟩ ∧
    msg_gai_nodata ≠ msg_no_ip_addresses := ⟨rfl, by decide⟩

/-- C3 (amended): under an explicit constraint, resolution never returns
an address whose family differs from the constrained family (on both the
interface path and the hostname path); but when no candidate has that
family, the failure is one of the `getaddrinfo` error categories (all
failure-coded), never the distinct "hostname does not possess any IP
addresses" category, which is unreachable. -/
theorem nc_c3 :
    (∀ (ri : Bool) (w : World) (node : String) (port : Nat) (x : SockAddr),
      construct_sockaddr ri w node port .FOUR = .ok (.addr x) → x.sa_family = AF_INET) ∧
    (∀ (ri : Bool) (w : World) (node : String) (port : Nat) (x : SockAddr),
      construct_sockaddr ri w node port .SIX = .ok (.addr x) → x.sa_family = AF_INET6) ∧
    (∀ (ri : Bool) (w : World) (node : String) (port : Nat) (c : IPVersionConstraint)
      (e : ProgExit), construct_sockaddr ri w node port c = .error e →
      e.exitCode = .failure ∧ e.msg ≠ msg_no_ip_addresses) := by
  refine ⟨construct_sockaddr_four_family, construct_sockaddr_six_family, ?_⟩
  intro ri w node port c e h
  obtain ⟨g, rfl⟩ := construct_sockaddr_error_shape ri w node port c e h
  exact ⟨gaiErrorExit_failure g, gaiErrorExit_msg_ne_no_ip g⟩

/-- C3 witness: the amended theorem applied at a concrete IPv4 literal
under the `FOUR` constraint. -/
theorem nc_c3_witness :
    construct_sockaddr false fixtureNumeric4 "10.0.0.5" 80 .FOUR
      = .ok (.addr ⟨AF_INET, [10, 0, 0, 5], htons 80⟩) ∧
    (⟨AF_INET, [10, 0, 0, 5], htons 80⟩ : SockAddr).sa_family = AF_INET :=
  ⟨rfl, nc_c3.1 false fixtureNumeric4 "10.0.0.5" 80 _ rfl⟩

/-- C4 counterexample: an `ANY` (`NONE`) resolution whose candidate list
contains an IPv6 address but lists an IPv4 candidate first returns the
IPv4 address — IPv6 is not preferred over earlier IPv4 candidates. -/
theorem nc_c4_cex :
    getaddrinfo_model fixtureDual "dual.host" AF_UNSPEC false
      = .ok [⟨AF_INET, [1, 2, 3, 4]⟩, ⟨AF_INET6, [0, 1]⟩] ∧
    construct_sockaddr false fixtureDual "dual.host" 80 .NONE
      = .ok (.addr ⟨AF_INET, [1, 2, 3, 4], htons 80⟩) ∧
    AF_INET ≠ AF_INET6 := ⟨rfl, rfl, by decide⟩

/-- C4 (amended): under constraint `ANY` (`NONE`) the resolver returns
the first candidate whose family is IPv4 or IPv6, in candidate order, on
both the hostname-lookup path and the interface-enumeration path; IPv6
wins only when it appears before every IPv4 candidate. -/
theorem nc_c4 :
    (∀ (w : World) (node : String) (port : Nat) (cands : List AddrCandidate)
      (cand : AddrCandidate),
      getaddrinfo_model w node AF_UNSPEC false = .ok cands →
      firstIPCandidate cands = some cand →
      construct_sockaddr false w node port .NONE
        = .ok (.addr (stampPort cand.sa_family cand.addr port))) ∧
    (∀ (w : World) (l : List Ifaddr) (node : String) (port : Nat) (p : IfPayload),
      w.ifaddrs = some l →
      firstMatchingIfPayload node l = some p →
      construct_sockaddr true w node port .NONE
        = .ok (.addr (stampPort p.family p.addr port))) := by
  constructor
  · intro w node port cands cand hg hfirst
    rw [construct_sockaddr_hostname_eq]
    unfold addrinfoPhase
    rw [show hintFamily .NONE = AF_UNSPEC from rfl]
    simp only [hg, addrinfoLoop_none_first cand cands hfirst]
  · intro w l node port p hif hfirst
    unfold firstMatchingIfPayload at hfirst
    unfold construct_sockaddr
    rw [if_pos rfl]
    simp only [hif, ifaddrLoop_eq_scan_dropLast,
      ifaddrScan_none_first node port p l.dropLast hfirst]

/-- C4 witness: the amended theorem applied at the dual-candidate world
(the IPv4 candidate listed first is selected). -/
theorem nc_c4_witness :
    getaddrinfo_model fixtureDual "dual.host" AF_UNSPEC false
      = .ok [⟨AF_INET, [1, 2, 3, 4]⟩, ⟨AF_INET6, [0, 1]⟩] ∧
    firstIPCandidate [⟨AF_INET, [1, 2, 3, 4]⟩, ⟨AF_INET6, [0, 1]⟩]
      = some ⟨AF_INET, [1, 2, 3, 4]⟩ ∧
    construct_sockaddr false fixtureDual "dual.host" 80 .NONE
      = .ok (.addr (stampPort AF_INET [1, 2, 3, 4] 80)) :=
  ⟨rfl, rfl, nc_c4.1 fixtureDual "dual.host" 80 _ _ rfl rfl⟩

/-- C5 counterexample: in interface-or-host mode, a node ("localhost")
that matches no interface name does NOT resolve as it would in
hostname-only mode: the fall-through lookup carries `AI_NUMERICHOST`, so
the hostname is rejected with the invalid-name category, while
hostname-only mode resolves it. -/
theorem nc_c5_cex :
    construct_sockaddr true fixtureLocalhost "localhost" 80 .NONE
      = .error ⟨msg_gai_noname, none, .failure⟩ ∧
    construct_sockaddr false fixtureLocalhost "localhost" 80 .NONE
      = .ok (.addr ⟨AF_INET, [127, 0, 0, 1], htons 80⟩) ∧
    (Except.error ⟨msg_gai_noname, none, ExitCode.failure⟩ :
        Except ProgExit CSAResult)
      ≠ .ok (.addr ⟨AF_INET, [127, 0, 0, 1], htons 80⟩) :=
  ⟨rfl, rfl, fun hh => Except.noConfusion hh⟩

/-- C5 (amended): when `node` matches no local interface name, interface
mode falls through to the system lookup with the numeric-only flag set:
a numeric literal resolves exactly as in hostname-only mode, but a
non-numeric hostname fails with the invalid-name category instead of
resolving. -/
theorem nc_c5 (w : World) (node : String) (port : Nat) (c : IPVersionConstraint)
    (hno : ∀ l, w.ifaddrs = some l → ∀ a ∈ l, a.ifa_name ≠ node) :
    construct_sockaddr true w node port c = addrinfoPhase w node port c true ∧
    (∀ entry, w.dns node = some entry → entry.isNumeric = false →
      construct_sockaddr true w node port c
        = .error ⟨msg_gai_noname, none, .failure⟩) ∧
    (∀ entry, w.dns node = some entry → entry.isNumeric = true →
      construct_sockaddr true w node port c
        = construct_sockaddr false w node port c) := by
  refine ⟨construct_sockaddr_no_if_match w node port c hno, ?_, ?_⟩
  · intro entry hdns hnum
    rw [construct_sockaddr_no_if_match w node port c hno]
    unfold addrinfoPhase
    rw [getaddrinfo_model_nonNumeric w node (hintFamily c) entry hdns hnum]
    show Except.error (gaiErrorExit EAI_NONAME) = _
    rw [show gaiErrorExit EAI_NONAME = ⟨msg_gai_noname, none, .failure⟩ from by decide]
  · intro entry hdns hnum
    rw [construct_sockaddr_no_if_match w node port c hno,
      construct_sockaddr_hostname_eq]
    unfold addrinfoPhase
    rw [getaddrinfo_model_numeric_agrees w node (hintFamily c) entry hdns hnum]

/-- C5 witness: the amended theorem applied at the localhost world
(no interface named "localhost"; the entry is non-numeric). -/
theorem nc_c5_witness :
    (∀ a ∈ [(⟨"eth0", some ⟨AF_INET, [10, 0, 0, 1]⟩⟩ : Ifaddr),
            ⟨"lo", some ⟨AF_INET, [127, 0, 0, 1]⟩⟩], a.ifa_name ≠ "localhost") ∧
    construct_sockaddr true fixtureLocalhost "localhost" 80 .NONE
      = .error ⟨msg_gai_noname, none, .failure⟩ := by
  constructor
  · decide
  · refine (nc_c5 fixtureLocalhost "localhost" 80 .NONE ?_).2.1
      ⟨false, [⟨AF_INET, [127, 0, 0, 1]⟩]⟩ rfl rfl
    intro l hl
    injection hl with hl
    subst hl
    decide

/-- C10: the `getifaddrs` loop condition tests the successor pointer, so
the final entry of the interface list is never examined: the loop result
is independent of the last entry, and a node that names only the
last-listed interface is not matched — resolution falls through to the
numeric-only lookup. -/
theorem nc_c10 :
    (∀ (node : String) (port : Nat) (c : IPVersionConstraint) (l : List Ifaddr)
      (y z : Ifaddr),
      ifaddrLoop node port c (l ++ [y]) = ifaddrLoop node port c (l ++ [z])) ∧
    (∀ (w : World) (l : List Ifaddr) (x : Ifaddr) (node : String) (port : Nat)
      (c : IPVersionConstraint),
      w.ifaddrs = some l → l.getLast? = some x → x.ifa_name = node →
      (∀ a ∈ l.dropLast, a.ifa_name ≠ node) →
      ifaddrLoop node port c l = none ∧
      construct_sockaddr true w node port c = addrinfoPhase w node port c true) := by
  constructor
  · intro node port c l y z
    rw [ifaddrLoop_eq_scan_dropLast, ifaddrLoop_eq_scan_dropLast,
      List.dropLast_concat, List.dropLast_concat]
  · intro w l x node port c hif hlast hname hdrop
    have hloop : ifaddrLoop node port c l = none := by
      rw [ifaddrLoop_eq_scan_dropLast]
      exact ifaddrScan_none node port c l.dropLast
        (fun a ha => ifaddrEntryPick_none_of_name node port c a (hdrop a ha))
    refine ⟨hloop, ?_⟩
    unfold construct_sockaddr
    rw [if_pos rfl]
    simp only [hif, hloop]

/-- C10 witness: the theorem applied at an interface list whose last
entry is the only one named "tail0". -/
theorem nc_c10_witness :
    ([(⟨"eth0", some ⟨AF_INET, [10, 0, 0, 1]⟩⟩ : Ifaddr),
      ⟨"tail0", some ⟨AF_INET, [10, 0, 0, 2]⟩⟩].getLast?
      = some ⟨"tail0", some ⟨AF_INET, [10, 0, 0, 2]⟩⟩) ∧
    ifaddrLoop "tail0" 80 .NONE
      [⟨"eth0", some ⟨AF_INET, [10, 0, 0, 1]⟩⟩,
       ⟨"tail0", some ⟨AF_INET, [10, 0, 0, 2]⟩⟩] = none ∧
    construct_sockaddr true fixtureLastIf "tail0" 80 .NONE
      = addrinfoPhase fixtureLastIf "tail0" 80 .NONE true := by
  have h := nc_c10.2 fixtureLastIf
    [⟨"eth0", some ⟨AF_INET, [10, 0, 0, 1]⟩⟩, ⟨"tail0", some ⟨AF_INET, [10, 0, 0, 2]⟩⟩]
    ⟨"tail0", some ⟨AF_INET, [10, 0, 0, 2]⟩⟩ "tail0" 80 .NONE rfl rfl rfl (by decide)
  exact ⟨rfl, h.1, h.2⟩

/-- C6: given a successful resolution to address `a` and successful
syscalls, `createListener` creates the socket with the resolved family
and the requested kind before binding, and toggles `IPV6_V6ONLY` exactly
per the constraint table: `NONE` with an IPv6 address disables it, `NONE`
with a non-IPv6 address makes no option call, `FOUR` makes no option
call, `SIX` force-enables it. -/
theorem nc_c6 (w : World) (sys : ListenerSyscalls) (address : String) (port : Nat)
    (ty : Nat) (c : IPVersionConstraint) (a : SockAddr)
    (hres : construct_sockaddr true w address port c = .ok (.addr a))
    (hsock : sys.socket_ok = true) (hopt : sys.setsockopt_ok = true)
    (hbind : sys.bind_errno = none) :
    ((c = .NONE ∧ a.sa_family = AF_INET6) →
      createListener w sys address port ty c
        = (.ok (), [.socketCall AF_INET6 ty, .setV6Only false, .bindCall a])) ∧
    ((c = .NONE ∧ a.sa_family ≠ AF_INET6) →
      createListener w sys address port ty c
        = (.ok (), [.socketCall a.sa_family ty, .bindCall a])) ∧
    (c = .FOUR →
      createListener w sys address port ty c
        = (.ok (), [.socketCall a.sa_family ty, .bindCall a])) ∧
    (c = .SIX →
      createListener w sys address port ty c
        = (.ok (), [.socketCall a.sa_family ty, .setV6Only true, .bindCall a])) := by
  refine ⟨?_, ?_, ?_, ?_⟩
  · rintro ⟨rfl, hfam⟩
    simp [createListener, hres, hsock, hopt, hbind, hfam]
  · rintro ⟨rfl, hfam⟩
    simp [createListener, hres, hsock, hopt, hbind, hfam]
  · rintro rfl
    simp [createListener, hres, hsock, hopt, hbind]
  · rintro rfl
    simp [createListener, hres, hsock, hopt, hbind]

/-- C6 witness: the theorem applied at a concrete IPv6 literal under the
`NONE` constraint with all syscalls succeeding. -/
theorem nc_c6_witness :
    construct_sockaddr true fixtureNumeric6 "::1" 443 .NONE
      = .ok (.addr ⟨AF_INET6, [0, 1], htons 443⟩) ∧
    createListener fixtureNumeric6 listenerSysOK "::1" 443 1 .NONE
      = (.ok (), [.socketCall AF_INET6 1, .setV6Only false,
          .bindCall ⟨AF_INET6, [0, 1], htons 443⟩]) :=
  ⟨rfl, (nc_c6 fixtureNumeric6 listenerSysOK "::1" 443 1 .NONE
    ⟨AF_INET6, [0, 1], htons 443⟩ rfl rfl rfl rfl).1 ⟨rfl, rfl⟩⟩

theorem sendErrorExit_transfer (c : Int) : isTransferExit (sendErrorExit c) := by
  unfold sendErrorExit isTransferExit
  split_ifs
  · exact ⟨Or.inl rfl, rfl⟩
  · exact ⟨Or.inr rfl, rfl⟩

theorem flagsOK_append (t : List SendEvent) (ev : SendEvent) (ht : flagsOK t)
    (hev : ev.flags = MSG_NOSIGNAL) : flagsOK (t ++ [ev]) := by
  intro x hx
  rcases List.mem_append.mp hx with hx | hx
  · exact ht x hx
  · rw [List.mem_singleton.mp hx]
    exact hev

theorem write_loop_sound (buffer : List Nat) (hlen : buffer.length < 2 ^ 63) :
    ∀ (oracle : List SendResult) (offset : Nat) (trace : List SendEvent) (sent : List Nat),
      offset ≤ buffer.length →
      wfOracle oracle (buffer.length - offset) = true →
      sent = buffer.take offset →
      flagsOK trace →
      WriteLoopPost buffer
        (NS_write_loop buffer oracle offset (buffer.length - offset) trace sent)
  | [], offset, trace, sent, _, _, _, _ => by
    simp [NS_write_loop, WriteLoopPost]
  | s :: rest, offset, trace, sent, hoff, hwf, hsent, hfl => by
    simp only [NS_write_loop]
    by_cases hc :
        (rawOf s) % (2 ^ 64) = ((buffer.length - offset : Nat) : Int) % (2 ^ 64)
    · rw [if_pos hc]
      show (sent ++ (buffer.drop offset).take (buffer.length - offset) = buffer) ∧
        flagsOK (trace ++ [⟨offset, buffer.length - offset, MSG_NOSIGNAL⟩])
      refine ⟨?_, flagsOK_append trace _ hfl rfl⟩
      rw [List.take_of_length_le (le_of_eq (List.length_drop offset buffer)), hsent,
        List.take_append_drop]
    · rw [if_neg hc]
      cases s with
      | err code =>
        exact ⟨sendErrorExit_transfer code, flagsOK_append trace _ hfl rfl⟩
      | ret r =>
        show WriteLoopPost buffer (NS_write_loop buffer rest (offset + r.toNat)
          (((((buffer.length - offset : Nat) : Int) - r) % (2 ^ 64)).toNat)
          (trace ++ [⟨offset, buffer.length - offset, MSG_NOSIGNAL⟩])
          (sent ++ (buffer.drop offset).take r.toNat))
        simp only [wfOracle, Bool.and_eq_true, decide_eq_true_eq] at hwf
        obtain ⟨⟨hr0, hrle⟩, hwrest⟩ := hwf
        have hsz : ((((buffer.length - offset : Nat) : Int) - r) % (2 ^ 64)).toNat
            = buffer.length - (offset + r.toNat) := by
          have h64 : ((buffer.length - offset : Nat) : Int) - r < 2 ^ 64 := by omega
          have h0 : 0 ≤ ((buffer.length - offset : Nat) : Int) - r := by omega
          rw [Int.emod_eq_of_lt h0 h64]
          omega
        rw [hsz]
        have hwrest2 : wfOracle rest (buffer.length - (offset + r.toNat)) = true := by
          have he : buffer.length - offset - r.toNat
              = buffer.length - (offset + r.toNat) := by omega
          rw [← he]
          exact hwrest
        refine write_loop_sound buffer hlen rest (offset + r.toNat) _ _
          (by omega) hwrest2 ?_ (flagsOK_append trace _ hfl rfl)
        rw [hsent]
        exact (List.take_add buffer offset r.toNat).symm

/-- C2: for every buffer and every realistic stream of `send` outcomes,
when `NetworkShepherd::write` returns it has handed the kernel exactly
the whole buffer, in order (partial positive counts advance the cursor
and the remainder is re-sent); when a send fails it terminates with a
transfer-error category (failure-coded); and every send call requests
`MSG_NOSIGNAL`. -/
theorem nc_c2 (buffer : List Nat) (oracle : List SendResult)
    (hlen : buffer.length < 2 ^ 63) (hwf : wfOracle oracle buffer.length = true) :
    (∀ trace sent, NS_write buffer oracle = some (.completed trace sent) →
      sent = buffer ∧ flagsOK trace) ∧
    (∀ e trace sent, NS_write buffer oracle = some (.fatal e trace sent) →
      isTransferExit e ∧ flagsOK trace) := by
  have h := write_loop_sound buffer hlen oracle 0 [] [] (Nat.zero_le _)
    (by simpa using hwf) rfl (fun ev hev => absurd hev (List.not_mem_nil ev))
  rw [show buffer.length - 0 = buffer.length from rfl] at h
  constructor
  · intro trace sent heq
    rw [NS_write] at heq
    rw [heq] at h
    exact h
  · intro e trace sent heq
    rw [NS_write] at heq
    rw [heq] at h
    exact h

/-- C2 witness: the theorem applied at the buffer `[1, 2, 3]` with a
partial send of 2 bytes followed by a send of the remaining byte. -/
theorem nc_c2_witness :
    ([1, 2, 3] : List Nat).length < 2 ^ 63 ∧
    wfOracle [.ret 2, .ret 1] ([1, 2, 3] : List Nat).length = true ∧
    (([1, 2, 3] : List Nat) = [1, 2, 3] ∧
      flagsOK [⟨0, 3, MSG_NOSIGNAL⟩, ⟨2, 1, MSG_NOSIGNAL⟩]) :=
  ⟨by decide, by decide,
    (nc_c2 [1, 2, 3] [.ret 2, .ret 1] (by decide) (by decide)).1
      [⟨0, 3, MSG_NOSIGNAL⟩, ⟨2, 1, MSG_NOSIGNAL⟩] [1, 2, 3] rfl⟩
